import Mathlib

/-!
Sunshine, Windows input layer (sunshine/platform/windows.cpp)

Shallow embedding of the virtual gamepad lifecycle (vigem_t, input, gamepad,
freeInput) and of the mouse button and keyboard translation (button_mouse,
keyboard).  Every function of the source that talks to the operating system
or to the ViGEm driver is embedded as a pure function from the responses of
the collaborators to the ordered list of calls it issues.
-/

namespace platf

/-! ## Platform constants -/

/-- Windows SDK (winuser.h, included by the source, not part of the repository): INPUT_MOUSE. -/
def INPUT_MOUSE : Nat := 0
/-- Windows SDK (winuser.h): INPUT_KEYBOARD. -/
def INPUT_KEYBOARD : Nat := 1

/-- Windows SDK (winuser.h): MOUSEEVENTF_LEFTDOWN. -/
def MOUSEEVENTF_LEFTDOWN : Nat := 0x0002
/-- Windows SDK (winuser.h): MOUSEEVENTF_LEFTUP. -/
def MOUSEEVENTF_LEFTUP : Nat := 0x0004
/-- Windows SDK (winuser.h): MOUSEEVENTF_RIGHTDOWN. -/
def MOUSEEVENTF_RIGHTDOWN : Nat := 0x0008
/-- Windows SDK (winuser.h): MOUSEEVENTF_RIGHTUP. -/
def MOUSEEVENTF_RIGHTUP : Nat := 0x0010
/-- Windows SDK (winuser.h): MOUSEEVENTF_MIDDLEDOWN. -/
def MOUSEEVENTF_MIDDLEDOWN : Nat := 0x0020
/-- Windows SDK (winuser.h): MOUSEEVENTF_MIDDLEUP. -/
def MOUSEEVENTF_MIDDLEUP : Nat := 0x0040
/-- Windows SDK (winuser.h): MOUSEEVENTF_XDOWN. -/
def MOUSEEVENTF_XDOWN : Nat := 0x0080
/-- Windows SDK (winuser.h): MOUSEEVENTF_XUP. -/
def MOUSEEVENTF_XUP : Nat := 0x0100
/-- Windows SDK (winuser.h): XBUTTON1. -/
def XBUTTON1 : Nat := 0x0001
/-- Windows SDK (winuser.h): XBUTTON2. -/
def XBUTTON2 : Nat := 0x0002

/-- Windows SDK (winuser.h): VK_LBUTTON. -/
def VK_LBUTTON : Nat := 0x01
/-- Windows SDK (winuser.h): VK_RBUTTON. -/
def VK_RBUTTON : Nat := 0x02
/-- Windows SDK (winuser.h): VK_MBUTTON. -/
def VK_MBUTTON : Nat := 0x04
/-- Windows SDK (winuser.h): VK_XBUTTON1. -/
def VK_XBUTTON1 : Nat := 0x05
/-- Windows SDK (winuser.h): VK_XBUTTON2. -/
def VK_XBUTTON2 : Nat := 0x06

/-- Windows SDK (winuser.h): VK_PAUSE. -/
def VK_PAUSE : Nat := 0x13
/-- Windows SDK (winuser.h): VK_PRIOR (page up). -/
def VK_PRIOR : Nat := 0x21
/-- Windows SDK (winuser.h): VK_NEXT (page down). -/
def VK_NEXT : Nat := 0x22
/-- Windows SDK (winuser.h): VK_END. -/
def VK_END : Nat := 0x23
/-- Windows SDK (winuser.h): VK_HOME. -/
def VK_HOME : Nat := 0x24
/-- Windows SDK (winuser.h): VK_LEFT. -/
def VK_LEFT : Nat := 0x25
/-- Windows SDK (winuser.h): VK_UP. -/
def VK_UP : Nat := 0x26
/-- Windows SDK (winuser.h): VK_RIGHT. -/
def VK_RIGHT : Nat := 0x27
/-- Windows SDK (winuser.h): VK_DOWN. -/
def VK_DOWN : Nat := 0x28
/-- Windows SDK (winuser.h): VK_INSERT. -/
def VK_INSERT : Nat := 0x2D
/-- Windows SDK (winuser.h): VK_DELETE. -/
def VK_DELETE : Nat := 0x2E
/-- Windows SDK (winuser.h): VK_LWIN. -/
def VK_LWIN : Nat := 0x5B
/-- Windows SDK (winuser.h): VK_RWIN. -/
def VK_RWIN : Nat := 0x5C
/-- Windows SDK (winuser.h): VK_DIVIDE. -/
def VK_DIVIDE : Nat := 0x6F
/-- Windows SDK (winuser.h): VK_RCONTROL. -/
def VK_RCONTROL : Nat := 0xA3
/-- Windows SDK (winuser.h): VK_RMENU (right alt). -/
def VK_RMENU : Nat := 0xA5

/-- Windows SDK (winuser.h): KEYEVENTF_EXTENDEDKEY. -/
def KEYEVENTF_EXTENDEDKEY : Nat := 0x0001
/-- Windows SDK (winuser.h): KEYEVENTF_KEYUP. -/
def KEYEVENTF_KEYUP : Nat := 0x0002
/-- Windows SDK (winuser.h): KEYEVENTF_SCANCODE. -/
def KEYEVENTF_SCANCODE : Nat := 0x0008
/-- Windows SDK (winuser.h): MAPVK_VK_TO_VSC. -/
def MAPVK_VK_TO_VSC : Nat := 0

/-- Status code of the ViGEm client library (enum VIGEM_ERROR, a 32 bit value). -/
abbrev VIGEM_ERROR := Nat

/-- ViGEm client library (ViGEm/Client.h, included by the source, not part of
the repository): the one status that means success. -/
def VIGEM_ERROR_NONE : VIGEM_ERROR := 0x20000000

/-- ViGEm client library (ViGEm/Client.h): the success test applied to every
driver status, VIGEM_SUCCESS(val) is (val == VIGEM_ERROR_NONE). -/
def VIGEM_SUCCESS (status : VIGEM_ERROR) : Bool :=
  status == VIGEM_ERROR_NONE

/-! ## Data model -/

/-- Raw pointer to a driver object (PVIGEM_CLIENT, PVIGEM_TARGET): none is nullptr. -/
abbrev Ptr := Option Nat

/-- Mouse payload of an INPUT descriptor; INPUT i {} zero-initialises every field. -/
structure MOUSEINPUT where
  dx : Int := 0
  dy : Int := 0
  mouseData : Nat := 0
  dwFlags : Nat := 0
  time : Nat := 0
  dwExtraInfo : Nat := 0
deriving DecidableEq, Repr

/-- Keyboard payload of an INPUT descriptor; INPUT i {} zero-initialises every field.
wVk and wScan are 16 bit, dwFlags is 32 bit. -/
structure KEYBDINPUT where
  wVk : Nat := 0
  wScan : Nat := 0
  dwFlags : Nat := 0
  time : Nat := 0
  dwExtraInfo : Nat := 0
deriving DecidableEq, Repr

/-- Event descriptor handed to SendInput: the type tag selects the payload. -/
inductive INPUT where
  | mouse (mi : MOUSEINPUT)
  | keyboard (ki : KEYBDINPUT)
deriving DecidableEq, Repr

/-- Type tag (field type) of an event descriptor. -/
def INPUT.type : INPUT → Nat
  | INPUT.mouse _ => INPUT_MOUSE
  | INPUT.keyboard _ => INPUT_KEYBOARD

/-- Modelled from the spec: gamepad_state_t is declared in common.h, which is
not among the sources; the spec gives it as a button bitmask, two trigger
scalars and four analog axis scalars, bit-compatible with the driver report
XUSB_REPORT, so that the reinterpretation in gamepad is the identity on it. -/
structure gamepad_state_t where
  buttonFlags : Nat
  lt : Nat
  rt : Nat
  lsX : Int
  lsY : Int
  rsX : Int
  rsY : Int
deriving DecidableEq, Repr

/-- Severities of BOOST_LOG used by the source. -/
inductive Severity where
  | warning
  | error
  | fatal
deriving DecidableEq, Repr

/-- One operand streamed into a log record. -/
inductive LogPart where
  | text (s : String)
  | hex (n : Nat)
  | int (n : Int)
deriving DecidableEq, Repr

/-- Calls to the collaborators (ViGEm driver, OS input, diagnostics, process),
recorded with their arguments in the order they are issued. -/
inductive Call where
  | vigem_alloc
  | vigem_connect (client : Ptr)
  | vigem_target_x360_alloc
  | vigem_target_add (client : Ptr) (target : Ptr)
  | vigem_target_is_attached (target : Ptr)
  | vigem_target_remove (client : Ptr) (target : Ptr)
  | vigem_disconnect (client : Ptr)
  | vigem_free (client : Ptr)
  | vigem_target_free (target : Ptr)
  | vigem_target_x360_update (client : Ptr) (target : Ptr) (report : gamepad_state_t)
  | GetAsyncKeyState (vKey : Nat)
  | MapVirtualKey (uCode : Nat) (uMapType : Nat)
  | SendInput (i : INPUT)
  | log (severity : Severity) (record : List LogPart)
  | log_flush
  | abort
deriving DecidableEq, Repr

/-- Responses of the ViGEm driver service. -/
structure ViGEm where
  vigem_alloc : Ptr
  vigem_connect : Ptr → VIGEM_ERROR
  vigem_target_x360_alloc : Ptr
  vigem_target_add : Ptr → Ptr → VIGEM_ERROR
  vigem_target_is_attached : Ptr → Bool
  vigem_target_remove : Ptr → Ptr → VIGEM_ERROR
  vigem_target_x360_update : Ptr → Ptr → gamepad_state_t → VIGEM_ERROR

/-- Responses of the operating system.  GetAsyncKeyState returns a SHORT, given
here by its 16 bit pattern; MapVirtualKey and SendInput return a UINT. -/
structure OS where
  GetAsyncKeyState : Nat → Nat
  MapVirtualKey : Nat → Nat → Nat
  SendInput : INPUT → Nat

/-- The class vigem_t: the two owning pointers, in declaration order. -/
structure vigem_t where
  x360 : Ptr := none
  client : Ptr := none
deriving DecidableEq, Repr

/-- Modelled from the spec: input_t is declared in common.h, which is not among
the sources; the session optionally owns one virtual gamepad device, none is
the null handle, and destroying a non-null handle runs freeInput on it. -/
abbrev input_t := Option vigem_t

/-! ## Owning pointers -/

/-- Modelled from the spec: util::safe_ptr is declared in utility.h, which is not
among the sources; an owning resource per handle kind releases the pointer it
holds with its deleter, and an empty one releases nothing. -/
def safe_ptr_release (deleter : Ptr → Call) (held : Ptr) : List Call :=
  match held with
  | none => []
  | some p => [deleter (some p)]

/-! ## vigem_t -/

/-- Method vigem_t::init: returned value, object afterwards, calls issued. -/
def vigem_t.init (drv : ViGEm) (self : vigem_t) : Int × vigem_t × List Call :=
  let t0 := [Call.vigem_alloc] ++ safe_ptr_release Call.vigem_free self.client
  let self := { self with client := drv.vigem_alloc }
  let status := drv.vigem_connect self.client
  let t1 := t0 ++ [Call.vigem_connect self.client]
  if !VIGEM_SUCCESS status then
    (-1, self, t1 ++ [Call.log Severity.warning
      [LogPart.text "Couldn't setup connection to ViGEm for gamepad support [",
       LogPart.hex status, LogPart.text "]"]])
  else
    let t2 := t1 ++ [Call.vigem_target_x360_alloc]
      ++ safe_ptr_release Call.vigem_target_free self.x360
    let self := { self with x360 := drv.vigem_target_x360_alloc }
    let status := drv.vigem_target_add self.client self.x360
    let t3 := t2 ++ [Call.vigem_target_add self.client self.x360]
    if !VIGEM_SUCCESS status then
      (-1, self, t3 ++ [Call.log Severity.error
        [LogPart.text "Couldn't add Gamepad to ViGEm connection [",
         LogPart.hex status, LogPart.text "]"]])
    else
      (0, self, t3)

/-- Body of the destructor of vigem_t: the calls it issues. -/
def vigem_t.dtor (drv : ViGEm) (self : vigem_t) : List Call :=
  match self.client with
  | none => []
  | some c =>
    (match self.x360 with
      | none => []
      | some t =>
        [Call.vigem_target_is_attached (some t)] ++
        (if drv.vigem_target_is_attached (some t) then
          let status := drv.vigem_target_remove (some c) (some t)
          [Call.vigem_target_remove (some c) (some t)] ++
          (if !VIGEM_SUCCESS status then
            [Call.log Severity.warning
              [LogPart.text "Couldn't detach gamepad from ViGEm [",
               LogPart.hex status, LogPart.text "]"]]
          else [])
        else []))
    ++ [Call.vigem_disconnect (some c)]

/-- Function freeInput, delete vigem: the destructor body, then the members are
destroyed in reverse declaration order (client, then x360). -/
def freeInput (drv : ViGEm) (p : vigem_t) : List Call :=
  vigem_t.dtor drv p
    ++ safe_ptr_release Call.vigem_free p.client
    ++ safe_ptr_release Call.vigem_target_free p.x360

/-- Function input: the session handle returned and the calls issued.  On the
failure path the local handle is destroyed when the function returns. -/
def input (drv : ViGEm) : input_t × List Call :=
  let r := vigem_t.init drv {}
  if r.1 != 0 then
    (none, r.2.2 ++ freeInput drv r.2.1)
  else
    (some r.2.1, r.2.2)

/-- Function gamepad: the session afterwards (passed by reference) and the
calls issued; nothing runs after abort. -/
def gamepad (drv : ViGEm) (input : input_t) (gamepad_state : gamepad_state_t) :
    input_t × List Call :=
  match input with
  | none => (none, [])
  | some vigem =>
    let xusb := gamepad_state
    let status := drv.vigem_target_x360_update vigem.client vigem.x360 xusb
    (some vigem,
      [Call.vigem_target_x360_update vigem.client vigem.x360 xusb] ++
      (if !VIGEM_SUCCESS status then
        [Call.log Severity.fatal
          [LogPart.text "Couldn't send gamepad input to ViGEm [",
           LogPart.hex status, LogPart.text "]"],
         Call.log_flush, Call.abort]
      else []))

/-! ## Key state guard -/

/-- The constant KEY_STATE_DOWN of button_mouse and keyboard: 0x8000 stored in a
SHORT, given by its 16 bit pattern. -/
def KEY_STATE_DOWN : Nat := 0x8000

/-- Integral promotion of a SHORT (16 bit pattern) to int (32 bit pattern): sign extension. -/
def int_of_SHORT (p : Nat) : Nat :=
  if p % 65536 < 32768 then p % 65536 else p % 65536 + 0xFFFF0000

/-- The test (key_state & KEY_STATE_DOWN) != 0 of button_mouse and keyboard. -/
def key_state_down (key_state : Nat) : Bool :=
  (int_of_SHORT key_state &&& int_of_SHORT KEY_STATE_DOWN) != 0

/-! ## Mouse buttons -/

/-- Lines 149 to 171 of button_mouse: the mouse payload built for a button index
and the virtual key the guard queries (mouse_button). -/
def button_mouse_event (button : Int) (release : Bool) : MOUSEINPUT × Nat :=
  let mi : MOUSEINPUT := {}
  if button == 1 then
    ({ mi with dwFlags := if release then MOUSEEVENTF_LEFTUP else MOUSEEVENTF_LEFTDOWN },
      VK_LBUTTON)
  else if button == 2 then
    ({ mi with dwFlags := if release then MOUSEEVENTF_MIDDLEUP else MOUSEEVENTF_MIDDLEDOWN },
      VK_MBUTTON)
  else if button == 3 then
    ({ mi with dwFlags := if release then MOUSEEVENTF_RIGHTUP else MOUSEEVENTF_RIGHTDOWN },
      VK_RBUTTON)
  else if button == 4 then
    ({ mi with dwFlags := if release then MOUSEEVENTF_XUP else MOUSEEVENTF_XDOWN,
               mouseData := XBUTTON1 },
      VK_XBUTTON1)
  else
    ({ mi with dwFlags := if release then MOUSEEVENTF_XUP else MOUSEEVENTF_XDOWN,
               mouseData := XBUTTON2 },
      VK_XBUTTON2)

/-- Function button_mouse: the calls issued. -/
def button_mouse (os : OS) (button : Int) (release : Bool) : List Call :=
  let ev := button_mouse_event button release
  let i := INPUT.mouse ev.1
  let mouse_button := ev.2
  let key_state := os.GetAsyncKeyState mouse_button
  if key_state_down key_state != release then
    [Call.GetAsyncKeyState mouse_button,
     Call.log Severity.warning
       [LogPart.text "Button state of mouse_button [", LogPart.int button,
        LogPart.text "] does not match the desired state"]]
  else
    let send := os.SendInput i
    [Call.GetAsyncKeyState mouse_button, Call.SendInput i] ++
    (if send != 1 then
      [Call.log Severity.warning [LogPart.text "Couldn't send mouse button input"]]
    else [])

/-! ## Keyboard -/

/-- Lines 205 to 207 of keyboard: the right alt code is replaced by VK_LWIN. -/
def keyboard_modcode (modcode : Nat) : Nat :=
  if modcode == VK_RMENU then VK_LWIN else modcode

/-- The case labels of the switch of keyboard, in source order. -/
def keyboard_extended_case (modcode : Nat) : Bool :=
  modcode == VK_RMENU || modcode == VK_RCONTROL || modcode == VK_INSERT ||
  modcode == VK_DELETE || modcode == VK_HOME || modcode == VK_END ||
  modcode == VK_PRIOR || modcode == VK_NEXT || modcode == VK_UP ||
  modcode == VK_DOWN || modcode == VK_LEFT || modcode == VK_RIGHT ||
  modcode == VK_DIVIDE

/-- Lines 217 to 253 of keyboard, run with the value modcode has there: the
keyboard payload built.  The UINT returned by MapVirtualKey is stored in the
16 bit field wScan. -/
def keyboard_event (os : OS) (modcode : Nat) (release : Bool) : KEYBDINPUT :=
  let ki : KEYBDINPUT := {}
  let ki :=
    if modcode != VK_LWIN && modcode != VK_RWIN && modcode != VK_PAUSE then
      { ki with wScan := os.MapVirtualKey modcode MAPVK_VK_TO_VSC % 65536,
                dwFlags := KEYEVENTF_SCANCODE }
    else
      { ki with wVk := modcode }
  let ki :=
    if keyboard_extended_case modcode then
      { ki with dwFlags := ki.dwFlags ||| KEYEVENTF_EXTENDEDKEY }
    else ki
  if release then { ki with dwFlags := ki.dwFlags ||| KEYEVENTF_KEYUP } else ki

/-- Function keyboard: the calls issued. -/
def keyboard (os : OS) (modcode : Nat) (release : Bool) : List Call :=
  let modcode := keyboard_modcode modcode
  let key_state := os.GetAsyncKeyState modcode
  if key_state_down key_state != release then
    [Call.GetAsyncKeyState modcode,
     Call.log Severity.warning
       [LogPart.text "Key state of vkey [", LogPart.hex modcode,
        LogPart.text "] does not match the desired state [",
        LogPart.text (if release then "on]" else "off]")]]
  else
    let i := INPUT.keyboard (keyboard_event os modcode release)
    let send := os.SendInput i
    [Call.GetAsyncKeyState modcode] ++
    (if modcode != VK_LWIN && modcode != VK_RWIN && modcode != VK_PAUSE then
      [Call.MapVirtualKey modcode MAPVK_VK_TO_VSC]
    else []) ++
    [Call.SendInput i] ++
    (if send != 1 then
      [Call.log Severity.warning [LogPart.text "Couldn't send moue movement input"]]
    else [])

/-- Whether a call is a SendInput call. -/
def Call.isSendInput : Call → Bool
  | Call.SendInput _ => true
  | _ => false

/-- Whether a call is a detach (vigem_target_remove) or a disconnect (vigem_disconnect). -/
def Call.isDetachOrDisconnect : Call → Bool
  | Call.vigem_target_remove _ _ => true
  | Call.vigem_disconnect _ => true
  | _ => false

/-- Whether a call goes to the ViGEm driver or injects input. -/
def Call.isDriverOrInjection : Call → Bool
  | Call.log _ _ => false
  | Call.log_flush => false
  | Call.abort => false
  | Call.GetAsyncKeyState _ => false
  | Call.MapVirtualKey _ _ => false
  | _ => true

/-! ## Test doubles of the collaborators -/

/-- Test double of the OS: every key and button is up, every event is accepted. -/
def os_all_up : OS :=
  { GetAsyncKeyState := fun _ => 0, MapVirtualKey := fun _ _ => 0x1E, SendInput := fun _ => 1 }

/-- Test double of the OS: every key and button is held down, no event is accepted. -/
def os_all_down : OS :=
  { GetAsyncKeyState := fun _ => 0x8000, MapVirtualKey := fun _ _ => 0x1E,
    SendInput := fun _ => 0 }

/-- Test double of the driver: every call succeeds and the target reports attached. -/
def drv_ok : ViGEm :=
  { vigem_alloc := some 1
    vigem_connect := fun _ => VIGEM_ERROR_NONE
    vigem_target_x360_alloc := some 2
    vigem_target_add := fun _ _ => VIGEM_ERROR_NONE
    vigem_target_is_attached := fun _ => true
    vigem_target_remove := fun _ _ => VIGEM_ERROR_NONE
    vigem_target_x360_update := fun _ _ _ => VIGEM_ERROR_NONE }

/-- Test double of the driver: the bus is missing, so connecting fails (0xE0000001). -/
def drv_no_bus : ViGEm :=
  { drv_ok with
    vigem_connect := fun _ => 0xE0000001
    vigem_target_is_attached := fun _ => false }

/-- Test double of the driver: connecting succeeds, adding the target fails
(0xE0000002) and the target reports not attached. -/
def drv_no_target : ViGEm :=
  { drv_ok with
    vigem_target_add := fun _ _ => 0xE0000002
    vigem_target_is_attached := fun _ => false }

/-- Test double of the driver: setup succeeds, then updating and detaching fail. -/
def drv_broken : ViGEm :=
  { drv_ok with
    vigem_target_remove := fun _ _ => 0xE0000005
    vigem_target_x360_update := fun _ _ _ => 0xE0000004 }

/-- A gamepad report with a sentinel in every field. -/
def report_sentinel : gamepad_state_t :=
  { buttonFlags := 0x1234, lt := 0x56, rt := 0x78, lsX := 1, lsY := -2, rsX := 3, rsY := -4 }

/-! ## Lemmas -/

/-- The guard test reads the high bit of the 16 bit key state. -/
theorem key_state_down_iff (key_state : Nat) :
    key_state_down key_state = decide (32768 ≤ key_state % 65536) := by
  unfold key_state_down int_of_SHORT KEY_STATE_DOWN
  have hx : key_state % 65536 < 65536 := Nat.mod_lt _ (by norm_num)
  generalize key_state % 65536 = x at hx
  by_cases h : x < 32768
  · have : x &&& 4294934528 = 0 := by
      apply Nat.eq_of_testBit_eq
      intro i
      simp only [Nat.testBit_and, Nat.zero_testBit, Bool.and_eq_false_imp]
      intro hxi
      have hi : i < 15 := by
        by_contra hge
        push_neg at hge
        have : x < 2 ^ i := lt_of_lt_of_le h (by
          calc 32768 = 2 ^ 15 := by norm_num
            _ ≤ 2 ^ i := Nat.pow_le_pow_right (by norm_num) hge)
        rw [Nat.testBit_lt_two_pow this] at hxi
        exact absurd hxi (by simp)
      interval_cases i <;> decide
    simp [h, this]
  · have hb : (x + 4294901760 &&& 4294934528).testBit 15 = true := by
      rw [Nat.testBit_and]
      have h1 : (x + 4294901760).testBit 15 = true := by
        rw [Nat.testBit_to_div_mod]
        simp
        omega
      have h2 : (4294934528 : Nat).testBit 15 = true := by decide
      simp [h1, h2]
    have hne : (x + 4294901760 &&& 4294934528) ≠ 0 := by
      intro h0
      rw [h0] at hb
      simp at hb
    have hle : 32768 ≤ x := by omega
    simp [h, hne, hle]

/-- Number of SendInput calls of button_mouse. -/
theorem button_mouse_sends (os : OS) (button : Int) (release : Bool) :
    (button_mouse os button release).countP Call.isSendInput =
      if key_state_down (os.GetAsyncKeyState (button_mouse_event button release).2) = release
      then 1 else 0 := by
  unfold button_mouse
  by_cases h : key_state_down (os.GetAsyncKeyState (button_mouse_event button release).2) = release
  · by_cases hs : os.SendInput (INPUT.mouse (button_mouse_event button release).1) = 1 <;>
      simp [h, hs, Call.isSendInput]
  · simp [h, Call.isSendInput]

/-- Number of SendInput calls of keyboard. -/
theorem keyboard_sends (os : OS) (modcode : Nat) (release : Bool) :
    (keyboard os modcode release).countP Call.isSendInput =
      if key_state_down (os.GetAsyncKeyState (keyboard_modcode modcode)) = release
      then 1 else 0 := by
  unfold keyboard
  by_cases h : key_state_down (os.GetAsyncKeyState (keyboard_modcode modcode)) = release
  · by_cases hs : os.SendInput (INPUT.keyboard
        (keyboard_event os (keyboard_modcode modcode) release)) = 1 <;>
    by_cases hk : (keyboard_modcode modcode != VK_LWIN && keyboard_modcode modcode != VK_RWIN
        && keyboard_modcode modcode != VK_PAUSE) = true <;>
      simp [h, hs, hk, Call.isSendInput, List.countP_cons, List.countP_append]
  · simp [h, Call.isSendInput]


/-! ## Key state guard (C1) -/

/-- C1, counterexample: with the left button up (down is false) and a press
requested (release is false), down equals release, yet button_mouse issues a
SendInput call; with the key A held down and a press requested, down differs
from release, yet keyboard issues no SendInput call.  So the rule that rejects
whenever down equals release, and injects otherwise, does not hold. -/
theorem key_state_guard_reject_on_equal_fails :
    key_state_down (os_all_up.GetAsyncKeyState VK_LBUTTON) = false ∧
    button_mouse os_all_up 1 false =
      [Call.GetAsyncKeyState VK_LBUTTON,
       Call.SendInput (INPUT.mouse { dwFlags := MOUSEEVENTF_LEFTDOWN })] ∧
    key_state_down (os_all_down.GetAsyncKeyState 0x41) = true ∧
    keyboard os_all_down 0x41 false =
      [Call.GetAsyncKeyState 0x41,
       Call.log Severity.warning
         [LogPart.text "Key state of vkey [", LogPart.hex 0x41,
          LogPart.text "] does not match the desired state [", LogPart.text "off]"]] ∧
    ¬ (∀ (os : OS) (button : Int) (release : Bool), 1 ≤ button → button ≤ 5 →
        (key_state_down (os.GetAsyncKeyState (button_mouse_event button release).2) = release →
          (button_mouse os button release).countP Call.isSendInput = 0) ∧
        (key_state_down (os.GetAsyncKeyState (button_mouse_event button release).2) ≠ release →
          (button_mouse os button release).countP Call.isSendInput = 1)) := by
  refine ⟨by decide, by decide, by decide, by decide, ?_⟩
  intro h
  have h1 := (h os_all_up 1 false (by decide) (by decide)).1 (by decide)
  revert h1
  decide

/-- C1, amended: for every button index (1 to 5 included) and every key code,
with down the high bit test of GetAsyncKeyState on the virtual key of the
button (resp. on the key code after the right alt normalisation), the
operation first queries that key, issues no SendInput call when down differs
from release, and issues exactly one SendInput call when down equals release. -/
theorem key_state_guard (os : OS) (button : Int) (modcode : Nat) (release : Bool) :
    ((button_mouse os button release).head? =
        some (Call.GetAsyncKeyState (button_mouse_event button release).2) ∧
      (button_mouse os button release).countP Call.isSendInput =
        if key_state_down (os.GetAsyncKeyState (button_mouse_event button release).2) = release
        then 1 else 0) ∧
    ((keyboard os modcode release).head? =
        some (Call.GetAsyncKeyState (keyboard_modcode modcode)) ∧
      (keyboard os modcode release).countP Call.isSendInput =
        if key_state_down (os.GetAsyncKeyState (keyboard_modcode modcode)) = release
        then 1 else 0) := by
  refine ⟨⟨?_, button_mouse_sends os button release⟩, ?_, keyboard_sends os modcode release⟩
  · unfold button_mouse
    by_cases h : key_state_down (os.GetAsyncKeyState (button_mouse_event button release).2)
        = release <;> simp [h]
  · unfold keyboard
    by_cases h : key_state_down (os.GetAsyncKeyState (keyboard_modcode modcode))
        = release <;> simp [h]

/-! ## Mouse button mapping (C10) -/

/-- C10: for every release flag, button indices 1 to 5 build the LEFT, MIDDLE,
RIGHT, X and X events (up variant exactly when release is set, down variant
otherwise) with mouseData 0, 0, 0, XBUTTON1, XBUTTON2, guarded by VK_LBUTTON,
VK_MBUTTON, VK_RBUTTON, VK_XBUTTON1, VK_XBUTTON2; the up and down variants
differ (the ten (flag, mouseData) pairs of the five indices and two release
flags are pairwise distinct) and the five guard keys are pairwise distinct; the guard of button_mouse queries that key and the event
sent, when one is sent, is that event. -/
theorem button_mouse_mapping (os : OS) (button : Int) (release : Bool) :
    (button_mouse_event 1 release =
        ({ dwFlags := if release then MOUSEEVENTF_LEFTUP else MOUSEEVENTF_LEFTDOWN,
           mouseData := 0 }, VK_LBUTTON) ∧
      button_mouse_event 2 release =
        ({ dwFlags := if release then MOUSEEVENTF_MIDDLEUP else MOUSEEVENTF_MIDDLEDOWN,
           mouseData := 0 }, VK_MBUTTON) ∧
      button_mouse_event 3 release =
        ({ dwFlags := if release then MOUSEEVENTF_RIGHTUP else MOUSEEVENTF_RIGHTDOWN,
           mouseData := 0 }, VK_RBUTTON) ∧
      button_mouse_event 4 release =
        ({ dwFlags := if release then MOUSEEVENTF_XUP else MOUSEEVENTF_XDOWN,
           mouseData := XBUTTON1 }, VK_XBUTTON1) ∧
      button_mouse_event 5 release =
        ({ dwFlags := if release then MOUSEEVENTF_XUP else MOUSEEVENTF_XDOWN,
           mouseData := XBUTTON2 }, VK_XBUTTON2)) ∧
    ([(1, false), (2, false), (3, false), (4, false), (5, false),
      (1, true), (2, true), (3, true), (4, true), (5, true)].map
        (fun br : Int × Bool =>
          ((button_mouse_event br.1 br.2).1.dwFlags,
           (button_mouse_event br.1 br.2).1.mouseData))).Nodup ∧
    ([1, 2, 3, 4, 5].map (fun b : Int => (button_mouse_event b release).2)).Nodup ∧
    (button_mouse os button release).head? =
      some (Call.GetAsyncKeyState (button_mouse_event button release).2) ∧
    (button_mouse os button release).filter Call.isSendInput =
      if key_state_down (os.GetAsyncKeyState (button_mouse_event button release).2) = release
      then [Call.SendInput (INPUT.mouse (button_mouse_event button release).1)] else [] := by
  refine ⟨by cases release <;> decide, by decide, by cases release <;> decide, ?_, ?_⟩
  · unfold button_mouse
    by_cases h : key_state_down (os.GetAsyncKeyState (button_mouse_event button release).2)
        = release <;> simp [h]
  · unfold button_mouse
    by_cases h : key_state_down (os.GetAsyncKeyState (button_mouse_event button release).2)
        = release
    · by_cases hs : os.SendInput (INPUT.mouse (button_mouse_event button release).1) = 1 <;>
        simp [h, hs, Call.isSendInput]
    · simp [h, Call.isSendInput]

/-! ## Right alt normalisation (C7) -/

/-- C7: for every release flag and every key state oracle, keyboard called with
VK_RMENU issues exactly the calls of keyboard called with VK_LWIN; the key
state is queried first, for VK_LWIN, and never for VK_RMENU; the event sent,
when one is sent, is the virtual key event of VK_LWIN. -/
theorem keyboard_right_alt_is_left_win (os : OS) (release : Bool) :
    keyboard os VK_RMENU release = keyboard os VK_LWIN release ∧
    (keyboard os VK_RMENU release).head? = some (Call.GetAsyncKeyState VK_LWIN) ∧
    (∀ k, Call.GetAsyncKeyState k ∈ keyboard os VK_RMENU release ↔ k = VK_LWIN) ∧
    (keyboard os VK_RMENU release).filter Call.isSendInput =
      (if key_state_down (os.GetAsyncKeyState VK_LWIN) = release
       then [Call.SendInput (INPUT.keyboard
         { wVk := VK_LWIN, wScan := 0, dwFlags := if release then KEYEVENTF_KEYUP else 0 })]
       else []) := by
  have hm : keyboard_modcode VK_RMENU = VK_LWIN := by decide
  have hl : keyboard_modcode VK_LWIN = VK_LWIN := by decide
  have hk : (VK_LWIN != VK_LWIN && VK_LWIN != VK_RWIN && VK_LWIN != VK_PAUSE) = false := by
    decide
  have he : keyboard_event os VK_LWIN release =
      { wVk := VK_LWIN, wScan := 0, dwFlags := if release then KEYEVENTF_KEYUP else 0 } := by
    cases release <;> simp [keyboard_event, hk] <;> decide
  refine ⟨?_, ?_, ?_, ?_⟩
  · unfold keyboard
    rw [hm, hl]
  · unfold keyboard
    rw [hm]
    by_cases h : key_state_down (os.GetAsyncKeyState VK_LWIN) = release <;> simp [h]
  · intro k
    unfold keyboard
    rw [hm]
    by_cases h : key_state_down (os.GetAsyncKeyState VK_LWIN) = release
    · by_cases hs : os.SendInput (INPUT.keyboard (keyboard_event os VK_LWIN release)) = 1 <;>
        simp [h, hs, hk]
    · simp [h]
  · unfold keyboard
    rw [hm]
    dsimp only
    rw [he]
    by_cases h : key_state_down (os.GetAsyncKeyState VK_LWIN) = release
    · by_cases hs : os.SendInput (INPUT.keyboard
        { wVk := VK_LWIN, wScan := 0, dwFlags := if release then KEYEVENTF_KEYUP else 0 }) = 1 <;>
        simp [h, hs, hk, Call.isSendInput]
    · simp [h, Call.isSendInput]


/-! ## Keyboard events (C8, C9) -/

/-- The event of every SendInput call of keyboard is the keyboard payload built
for the key code after the right alt normalisation. -/
theorem keyboard_sent_event (os : OS) (modcode : Nat) (release : Bool) (i : INPUT)
    (h : Call.SendInput i ∈ keyboard os modcode release) :
    i = INPUT.keyboard (keyboard_event os (keyboard_modcode modcode) release) := by
  unfold keyboard at h
  by_cases hg : key_state_down (os.GetAsyncKeyState (keyboard_modcode modcode)) = release
  · by_cases hs : os.SendInput (INPUT.keyboard
        (keyboard_event os (keyboard_modcode modcode) release)) = 1 <;>
    by_cases hk : (keyboard_modcode modcode != VK_LWIN && keyboard_modcode modcode != VK_RWIN
        && keyboard_modcode modcode != VK_PAUSE) = true <;>
      simp [hg, hs, hk] at h <;> exact h
  · simp [hg] at h

/-- Path taken by the keyboard payload: virtual key for the three special keys,
scan code for every other key. -/
theorem keyboard_event_path (os : OS) (k : Nat) (release : Bool) :
    if k = VK_LWIN ∨ k = VK_RWIN ∨ k = VK_PAUSE then
      (keyboard_event os k release).wVk = k ∧ (keyboard_event os k release).wScan = 0 ∧
      (keyboard_event os k release).dwFlags &&& KEYEVENTF_SCANCODE = 0
    else
      (keyboard_event os k release).dwFlags &&& KEYEVENTF_SCANCODE = KEYEVENTF_SCANCODE ∧
      (keyboard_event os k release).wScan = os.MapVirtualKey k MAPVK_VK_TO_VSC % 65536 ∧
      (keyboard_event os k release).wVk = 0 := by
  by_cases h1 : k = VK_LWIN
  · subst h1; cases release <;> simp [keyboard_event] <;> decide
  by_cases h2 : k = VK_RWIN
  · subst h2; cases release <;> simp [keyboard_event] <;> decide
  by_cases h3 : k = VK_PAUSE
  · subst h3; cases release <;> simp [keyboard_event] <;> decide
  have hk : (k != VK_LWIN && k != VK_RWIN && k != VK_PAUSE) = true := by simp [h1, h2, h3]
  simp only [h1, h2, h3, or_self, if_false]
  unfold keyboard_event
  simp only [hk, if_true]
  by_cases he : keyboard_extended_case k = true <;> cases release <;>
    simp [he] <;> decide

/-- The extended key flag of the keyboard payload follows the case labels of the switch. -/
theorem keyboard_event_extended (os : OS) (k : Nat) (release : Bool) :
    ((keyboard_event os k release).dwFlags &&& KEYEVENTF_EXTENDEDKEY ≠ 0) ↔
      keyboard_extended_case k = true := by
  unfold keyboard_event
  by_cases hk : (k != VK_LWIN && k != VK_RWIN && k != VK_PAUSE) = true <;>
  by_cases he : keyboard_extended_case k = true <;> cases release <;>
    simp [hk, he] <;> decide

/-- C8, counterexample: VK_RMENU is not one of VK_LWIN, VK_RWIN, VK_PAUSE, yet the
event keyboard injects for it (all keys up, press requested) is on the virtual
key path: wVk is VK_LWIN, wScan is 0 and KEYEVENTF_SCANCODE is not set. -/
theorem keyboard_path_by_caller_code_fails :
    (VK_RMENU ≠ VK_LWIN ∧ VK_RMENU ≠ VK_RWIN ∧ VK_RMENU ≠ VK_PAUSE) ∧
    keyboard os_all_up VK_RMENU false =
      [Call.GetAsyncKeyState VK_LWIN,
       Call.SendInput (INPUT.keyboard { wVk := VK_LWIN, wScan := 0, dwFlags := 0 })] ∧
    ¬ (∀ (os : OS) (code : Nat) (release : Bool) (ki : KEYBDINPUT),
        Call.SendInput (INPUT.keyboard ki) ∈ keyboard os code release →
        if code = VK_LWIN ∨ code = VK_RWIN ∨ code = VK_PAUSE then
          ki.wVk = code ∧ ki.wScan = 0 ∧ ki.dwFlags &&& KEYEVENTF_SCANCODE = 0
        else
          ki.dwFlags &&& KEYEVENTF_SCANCODE ≠ 0 ∧
          ki.wScan = os.MapVirtualKey code MAPVK_VK_TO_VSC % 65536 ∧ ki.wVk = 0) := by
  refine ⟨by decide, by decide, ?_⟩
  intro h
  have h1 := h os_all_up VK_RMENU false { wVk := VK_LWIN, wScan := 0, dwFlags := 0 } (by decide)
  revert h1
  decide

/-- C8, amended: for every key code and release flag for which keyboard injects an
event, with k the key code after the right alt normalisation (VK_RMENU
replaced by VK_LWIN): if k is VK_LWIN, VK_RWIN or VK_PAUSE the event uses the
virtual key path (wVk is k, wScan is 0, KEYEVENTF_SCANCODE not set); for every
other k it uses the scan code path (KEYEVENTF_SCANCODE set, wScan is
MapVirtualKey(k, VK_TO_VSC) as stored in the 16 bit field, wVk is 0). -/
theorem keyboard_special_path (os : OS) (code : Nat) (release : Bool) (i : INPUT)
    (h : Call.SendInput i ∈ keyboard os code release) :
    ∃ ki : KEYBDINPUT, i = INPUT.keyboard ki ∧
      if keyboard_modcode code = VK_LWIN ∨ keyboard_modcode code = VK_RWIN ∨
          keyboard_modcode code = VK_PAUSE then
        ki.wVk = keyboard_modcode code ∧ ki.wScan = 0 ∧
        ki.dwFlags &&& KEYEVENTF_SCANCODE = 0
      else
        ki.dwFlags &&& KEYEVENTF_SCANCODE = KEYEVENTF_SCANCODE ∧
        ki.wScan = os.MapVirtualKey (keyboard_modcode code) MAPVK_VK_TO_VSC % 65536 ∧
        ki.wVk = 0 :=
  ⟨keyboard_event os (keyboard_modcode code) release,
    keyboard_sent_event os code release i h,
    keyboard_event_path os (keyboard_modcode code) release⟩

/-- C8, witness: the key A (0x41), all keys up, press requested, goes by scan code. -/
theorem keyboard_special_path_witness :
    Call.SendInput (INPUT.keyboard { wScan := 0x1E, dwFlags := KEYEVENTF_SCANCODE })
        ∈ keyboard os_all_up 0x41 false ∧
    ∃ ki : KEYBDINPUT,
      INPUT.keyboard { wScan := 0x1E, dwFlags := KEYEVENTF_SCANCODE } = INPUT.keyboard ki ∧
      if keyboard_modcode 0x41 = VK_LWIN ∨ keyboard_modcode 0x41 = VK_RWIN ∨
          keyboard_modcode 0x41 = VK_PAUSE then
        ki.wVk = keyboard_modcode 0x41 ∧ ki.wScan = 0 ∧
        ki.dwFlags &&& KEYEVENTF_SCANCODE = 0
      else
        ki.dwFlags &&& KEYEVENTF_SCANCODE = KEYEVENTF_SCANCODE ∧
        ki.wScan = os_all_up.MapVirtualKey (keyboard_modcode 0x41) MAPVK_VK_TO_VSC % 65536 ∧
        ki.wVk = 0 :=
  ⟨by decide, keyboard_special_path os_all_up 0x41 false _ (by decide)⟩

/-- C9, counterexample: VK_RMENU is in the extended set, yet the event keyboard
injects for it (all keys down, release requested) does not carry
KEYEVENTF_EXTENDEDKEY: it is the key up event of VK_LWIN. -/
theorem keyboard_extended_by_caller_code_fails :
    keyboard os_all_down VK_RMENU true =
      [Call.GetAsyncKeyState VK_LWIN,
       Call.SendInput (INPUT.keyboard { wVk := VK_LWIN, dwFlags := KEYEVENTF_KEYUP }),
       Call.log Severity.warning [LogPart.text "Couldn't send moue movement input"]] ∧
    KEYEVENTF_KEYUP &&& KEYEVENTF_EXTENDEDKEY = 0 ∧
    ¬ (∀ (os : OS) (code : Nat) (release : Bool) (ki : KEYBDINPUT),
        Call.SendInput (INPUT.keyboard ki) ∈ keyboard os code release →
        (ki.dwFlags &&& KEYEVENTF_EXTENDEDKEY ≠ 0 ↔
          code ∈ [VK_INSERT, VK_DELETE, VK_HOME, VK_END, VK_PRIOR, VK_NEXT, VK_UP, VK_DOWN,
                  VK_LEFT, VK_RIGHT, VK_DIVIDE, VK_RCONTROL, VK_RMENU])) := by
  refine ⟨by decide, by decide, ?_⟩
  intro h
  have h1 := h os_all_down VK_RMENU true { wVk := VK_LWIN, dwFlags := KEYEVENTF_KEYUP }
    (by decide)
  revert h1
  decide

/-- C9, amended: for every key code passed to keyboard other than VK_RMENU and every
release flag for which an event is injected, the injected event carries
KEYEVENTF_EXTENDEDKEY if and only if the key code passed by the caller is in
the extended set (VK_INSERT, VK_DELETE, VK_HOME, VK_END, VK_PRIOR, VK_NEXT,
VK_UP, VK_DOWN, VK_LEFT, VK_RIGHT, VK_DIVIDE, VK_RCONTROL, VK_RMENU). -/
theorem keyboard_extended_flag (os : OS) (code : Nat) (release : Bool) (i : INPUT)
    (hcode : code ≠ VK_RMENU)
    (h : Call.SendInput i ∈ keyboard os code release) :
    ∃ ki : KEYBDINPUT, i = INPUT.keyboard ki ∧
      (ki.dwFlags &&& KEYEVENTF_EXTENDEDKEY ≠ 0 ↔
        code ∈ [VK_INSERT, VK_DELETE, VK_HOME, VK_END, VK_PRIOR, VK_NEXT, VK_UP, VK_DOWN,
                VK_LEFT, VK_RIGHT, VK_DIVIDE, VK_RCONTROL, VK_RMENU]) := by
  refine ⟨keyboard_event os (keyboard_modcode code) release,
    keyboard_sent_event os code release i h, ?_⟩
  have hm : keyboard_modcode code = code := by simp [keyboard_modcode, hcode]
  rw [hm, keyboard_event_extended]
  simp only [keyboard_extended_case, Bool.or_eq_true, beq_iff_eq, List.mem_cons,
    List.mem_singleton, List.not_mem_nil, or_false]
  tauto

/-- C9, witness: VK_INSERT, all keys up, press requested. -/
theorem keyboard_extended_flag_witness :
    VK_INSERT ≠ VK_RMENU ∧
    Call.SendInput (INPUT.keyboard
        { wScan := 0x1E, dwFlags := KEYEVENTF_SCANCODE ||| KEYEVENTF_EXTENDEDKEY })
      ∈ keyboard os_all_up VK_INSERT false ∧
    ∃ ki : KEYBDINPUT,
      INPUT.keyboard { wScan := 0x1E, dwFlags := KEYEVENTF_SCANCODE ||| KEYEVENTF_EXTENDEDKEY }
        = INPUT.keyboard ki ∧
      (ki.dwFlags &&& KEYEVENTF_EXTENDEDKEY ≠ 0 ↔
        VK_INSERT ∈ [VK_INSERT, VK_DELETE, VK_HOME, VK_END, VK_PRIOR, VK_NEXT, VK_UP, VK_DOWN,
                VK_LEFT, VK_RIGHT, VK_DIVIDE, VK_RCONTROL, VK_RMENU]) :=
  ⟨by decide, by decide, keyboard_extended_flag os_all_up VK_INSERT false _ (by decide) (by decide)⟩


/-! ## Virtual gamepad device (C2 to C6) -/

/-- Result of init on a fresh object, by the two driver statuses. -/
theorem init_fresh (drv : ViGEm) :
    vigem_t.init drv {} =
      if VIGEM_SUCCESS (drv.vigem_connect drv.vigem_alloc) then
        if VIGEM_SUCCESS (drv.vigem_target_add drv.vigem_alloc drv.vigem_target_x360_alloc) then
          (0, { x360 := drv.vigem_target_x360_alloc, client := drv.vigem_alloc },
            [Call.vigem_alloc, Call.vigem_connect drv.vigem_alloc, Call.vigem_target_x360_alloc,
             Call.vigem_target_add drv.vigem_alloc drv.vigem_target_x360_alloc])
        else
          (-1, { x360 := drv.vigem_target_x360_alloc, client := drv.vigem_alloc },
            [Call.vigem_alloc, Call.vigem_connect drv.vigem_alloc, Call.vigem_target_x360_alloc,
             Call.vigem_target_add drv.vigem_alloc drv.vigem_target_x360_alloc,
             Call.log Severity.error
               [LogPart.text "Couldn't add Gamepad to ViGEm connection [",
                LogPart.hex (drv.vigem_target_add drv.vigem_alloc drv.vigem_target_x360_alloc),
                LogPart.text "]"]])
      else
        (-1, { x360 := none, client := drv.vigem_alloc },
          [Call.vigem_alloc, Call.vigem_connect drv.vigem_alloc,
           Call.log Severity.warning
             [LogPart.text "Couldn't setup connection to ViGEm for gamepad support [",
              LogPart.hex (drv.vigem_connect drv.vigem_alloc), LogPart.text "]"]]) := by
  unfold vigem_t.init
  by_cases hc : VIGEM_SUCCESS (drv.vigem_connect drv.vigem_alloc) = true <;>
  by_cases ha : VIGEM_SUCCESS
      (drv.vigem_target_add drv.vigem_alloc drv.vigem_target_x360_alloc) = true <;>
    simp [hc, ha, safe_ptr_release]

/-- The destructor body never aborts, and detaches only a target that exists,
under a connection that exists, and that reports attached. -/
theorem dtor_calls (drv : ViGEm) (v : vigem_t) :
    Call.abort ∉ vigem_t.dtor drv v ∧
    ∀ c t, Call.vigem_target_remove c t ∈ vigem_t.dtor drv v →
      v.client = c ∧ v.x360 = t ∧ c ≠ none ∧ t ≠ none ∧
      drv.vigem_target_is_attached v.x360 = true := by
  obtain ⟨x, c⟩ := v
  cases c with
  | none => simp [vigem_t.dtor]
  | some c =>
    cases x with
    | none => simp [vigem_t.dtor]
    | some t =>
      by_cases ha : drv.vigem_target_is_attached (some t) = true <;>
      by_cases hs : VIGEM_SUCCESS (drv.vigem_target_remove (some c) (some t)) = true <;>
        simp [vigem_t.dtor, ha, hs]

/-- The member deleters are neither a detach nor an abort. -/
theorem safe_ptr_release_free (p q : Ptr) :
    Call.abort ∉ safe_ptr_release Call.vigem_free p ++
        safe_ptr_release Call.vigem_target_free q ∧
    ∀ c t, Call.vigem_target_remove c t ∉ safe_ptr_release Call.vigem_free p ++
        safe_ptr_release Call.vigem_target_free q := by
  cases p <;> cases q <;> simp [safe_ptr_release]

/-- The states of a device that never attached: a fresh object holds no
connection, and after init with a failed connect no target is held. -/
theorem never_attached_states (drv : ViGEm) :
    ({} : vigem_t).client = none ∧ ({} : vigem_t).x360 = none ∧
    (VIGEM_SUCCESS (drv.vigem_connect drv.vigem_alloc) = false →
      (vigem_t.init drv {}).2.1.x360 = none) := by
  refine ⟨rfl, rfl, ?_⟩
  intro h
  rw [init_fresh]
  simp [h]

/-- C2: for every session holding a device and every report, gamepad issues the
driver update first; when the update returns a non-success status it then logs
at fatal severity, flushes the log and aborts, in that order, and nothing
follows; when the update succeeds the update is the only call.  In both cases
no driver or injection call follows the update and the session is unchanged. -/
theorem gamepad_update_failure_is_fatal (drv : ViGEm) (vigem : vigem_t)
    (report : gamepad_state_t) :
    gamepad drv (some vigem) report =
      (some vigem,
        if VIGEM_SUCCESS (drv.vigem_target_x360_update vigem.client vigem.x360 report) then
          [Call.vigem_target_x360_update vigem.client vigem.x360 report]
        else
          [Call.vigem_target_x360_update vigem.client vigem.x360 report,
           Call.log Severity.fatal
             [LogPart.text "Couldn't send gamepad input to ViGEm [",
              LogPart.hex (drv.vigem_target_x360_update vigem.client vigem.x360 report),
              LogPart.text "]"],
           Call.log_flush, Call.abort]) ∧
    (gamepad drv (some vigem) report).2.tail.any Call.isDriverOrInjection = false := by
  unfold gamepad
  by_cases h : VIGEM_SUCCESS (drv.vigem_target_x360_update vigem.client vigem.x360 report) = true
    <;> simp [h, Call.isDriverOrInjection]

/-- C3: for every report, gamepad on a session with no virtual device (null
handle) issues no call at all (no driver call, no injection, no abort) and
leaves the session null. -/
theorem gamepad_without_device (drv : ViGEm) (report : gamepad_state_t) :
    gamepad drv none report = (none, []) ∧
    (gamepad drv none report).2.any Call.isDriverOrInjection = false ∧
    Call.abort ∉ (gamepad drv none report).2 := by
  simp [gamepad]

/-- C4: for every driver, input returns a device (holding the connection and the
target the driver allocated) exactly when the connect status and the add
target status are both success, and the null handle otherwise; it never
aborts; and when the connect status is not success it neither allocates a
target nor calls add target. -/
theorem input_ready_iff (drv : ViGEm) :
    (input drv).1 =
      (if VIGEM_SUCCESS (drv.vigem_connect drv.vigem_alloc) &&
          VIGEM_SUCCESS (drv.vigem_target_add drv.vigem_alloc drv.vigem_target_x360_alloc)
       then some { x360 := drv.vigem_target_x360_alloc, client := drv.vigem_alloc }
       else none) ∧
    Call.abort ∉ (input drv).2 ∧
    (if VIGEM_SUCCESS (drv.vigem_connect drv.vigem_alloc) then True
     else Call.vigem_target_x360_alloc ∉ (input drv).2 ∧
          ∀ c t, Call.vigem_target_add c t ∉ (input drv).2) := by
  unfold input
  rw [init_fresh]
  by_cases hc : VIGEM_SUCCESS (drv.vigem_connect drv.vigem_alloc) = true
  · by_cases ha : VIGEM_SUCCESS
        (drv.vigem_target_add drv.vigem_alloc drv.vigem_target_x360_alloc) = true
    · simp [hc, ha]
    · have hd := (dtor_calls drv
        { x360 := drv.vigem_target_x360_alloc, client := drv.vigem_alloc }).1
      have hf := (safe_ptr_release_free drv.vigem_alloc drv.vigem_target_x360_alloc).1
      simp only [List.mem_append, not_or] at hf
      simp [hc, ha, freeInput, hd, hf.1, hf.2]
  · simp only [hc, Bool.false_and, if_false, freeInput]
    cases drv.vigem_alloc <;> simp [vigem_t.dtor, safe_ptr_release]

/-- C5: for every device whose connection exists and whose target exists and
reports attached, and whatever status the detach returns, the destructor
issues exactly one detach and exactly one disconnect, the detach first; the
same holds of freeInput, which runs the destructor. -/
theorem teardown_detach_then_disconnect (drv : ViGEm) (v : vigem_t) (c t : Nat)
    (hc : v.client = some c) (ht : v.x360 = some t)
    (ha : drv.vigem_target_is_attached (some t) = true) :
    (vigem_t.dtor drv v).filter Call.isDetachOrDisconnect =
      [Call.vigem_target_remove (some c) (some t), Call.vigem_disconnect (some c)] ∧
    (freeInput drv v).filter Call.isDetachOrDisconnect =
      [Call.vigem_target_remove (some c) (some t), Call.vigem_disconnect (some c)] := by
  obtain ⟨x, cl⟩ := v
  simp only at hc ht
  subst hc ht
  by_cases hs : VIGEM_SUCCESS (drv.vigem_target_remove (some c) (some t)) = true <;>
    simp [freeInput, vigem_t.dtor, ha, hs, safe_ptr_release, Call.isDetachOrDisconnect]

/-- C5, witness: a device set up by a driver whose detach then fails. -/
theorem teardown_detach_then_disconnect_witness :
    (drv_broken.vigem_target_is_attached (some 2) = true ∧
      VIGEM_SUCCESS (drv_broken.vigem_target_remove (some 1) (some 2)) = false) ∧
    ((vigem_t.dtor drv_broken { x360 := some 2, client := some 1 }).filter
        Call.isDetachOrDisconnect =
      [Call.vigem_target_remove (some 1) (some 2), Call.vigem_disconnect (some 1)] ∧
    (freeInput drv_broken { x360 := some 2, client := some 1 }).filter
        Call.isDetachOrDisconnect =
      [Call.vigem_target_remove (some 1) (some 2), Call.vigem_disconnect (some 1)]) :=
  ⟨by decide,
    teardown_detach_then_disconnect drv_broken { x360 := some 2, client := some 1 } 1 2
      rfl rfl (by decide)⟩

/-- C6: for every device state in which the target never attached (no connection
is held, or no target is held, or the target reports not attached), the
destructor and freeInput issue no detach call and never abort. -/
theorem teardown_never_attached (drv : ViGEm) (v : vigem_t)
    (h : v.client = none ∨ v.x360 = none ∨ drv.vigem_target_is_attached v.x360 = false) :
    ((∀ c t, Call.vigem_target_remove c t ∉ vigem_t.dtor drv v) ∧
      Call.abort ∉ vigem_t.dtor drv v) ∧
    ((∀ c t, Call.vigem_target_remove c t ∉ freeInput drv v) ∧
      Call.abort ∉ freeInput drv v) := by
  have hd := dtor_calls drv v
  have hf := safe_ptr_release_free v.client v.x360
  have hno : ∀ c t, Call.vigem_target_remove c t ∉ vigem_t.dtor drv v := by
    intro c t hm
    obtain ⟨h1, h2, h3, h4, h5⟩ := hd.2 c t hm
    rcases h with h | h | h
    · exact h3 (h1 ▸ h)
    · exact h4 (h2 ▸ h)
    · rw [h] at h5
      exact absurd h5 (by simp)
  refine ⟨⟨hno, hd.1⟩, ?_, ?_⟩
  · intro c t hm
    unfold freeInput at hm
    rw [List.append_assoc, List.mem_append] at hm
    rcases hm with hm | hm
    · exact hno c t hm
    · exact hf.2 c t hm
  · intro hm
    unfold freeInput at hm
    rw [List.append_assoc, List.mem_append] at hm
    rcases hm with hm | hm
    · exact hd.1 hm
    · exact hf.1 hm

/-- C6, witness: the device left by init when the driver bus is missing (the
connect fails, so no target is allocated). -/
theorem teardown_never_attached_witness :
    (vigem_t.init drv_no_bus {}).2.1 = { x360 := none, client := some 1 } ∧
    (((∀ c t, Call.vigem_target_remove c t ∉
          vigem_t.dtor drv_no_bus (vigem_t.init drv_no_bus {}).2.1) ∧
        Call.abort ∉ vigem_t.dtor drv_no_bus (vigem_t.init drv_no_bus {}).2.1) ∧
      ((∀ c t, Call.vigem_target_remove c t ∉
          freeInput drv_no_bus (vigem_t.init drv_no_bus {}).2.1) ∧
        Call.abort ∉ freeInput drv_no_bus (vigem_t.init drv_no_bus {}).2.1)) :=
  ⟨by decide,
    teardown_never_attached drv_no_bus (vigem_t.init drv_no_bus {}).2.1
      (Or.inr (Or.inl (by decide)))⟩

end platf
